import Mathlib

/-
Shallow embedding of `src/hvac/api/secrets_engines/active_directory.py`, the
Active Directory secrets-engine client of the hvac library.

Modelling conventions:
* A Python value that can appear in a JSON request body is a `Value`;
  Python's `None` is `Value.vNull` (optional parameters default to `None`,
  so an unsupplied optional parameter arrives as `Value.vNull`, exactly as
  in the Python code).
* A JSON body (Python `dict`) is an insertion-ordered association list
  `List (String × Value)`; `dictGet`, `dictSet` and `dictUpdate` mirror
  `dict` lookup, single-key assignment and `dict.update`.
* The transport (`self._adapter`) is not part of this repository's sources;
  following the spec it is an external collaborator exposing `get`, `post`,
  `delete` and `list`.  It is modelled as an `Oracle`: an arbitrary function
  from the request history and the current request to a response, so every
  possible transport behaviour (success, error status, network failure) is
  quantified over.  Each adapter call appends the issued request to a trace,
  letting theorems count transport calls.
-/

/-- A JSON-encodable Python value as used in this module's request bodies. -/
inductive Value where
  | vNull
  | vStr (s : String)
  | vInt (n : Int)
  | vBool (b : Bool)
  | vStrList (xs : List String)
  deriving DecidableEq, Repr

/-- Python `dict` lookup on an insertion-ordered association list. -/
def dictGet : List (String × Value) → String → Option Value
  | [], _ => none
  | kv :: rest, k => if kv.1 = k then some kv.2 else dictGet rest k

/-- Python `dict` single-key assignment: overwrite in place if the key is
present, otherwise append at the end (insertion order preserved). -/
def dictSet : List (String × Value) → String → Value → List (String × Value)
  | [], k, v => [(k, v)]
  | kv :: rest, k, v => if kv.1 = k then (k, v) :: rest else kv :: dictSet rest k v

/-- Python `dict.update`: assign every key of the second dict into the first. -/
def dictUpdate (d : List (String × Value)) (u : List (String × Value)) : List (String × Value) :=
  u.foldl (fun acc kv => dictSet acc kv.1 kv.2) d

/-- Modelled from the spec: `hvac.utils.remove_nones` is not under `src/`.
Per the spec's body-construction rule, the body merges "every named optional
parameter whose value is not absent; absent means the caller did not supply
it (distinct from an explicit false/zero/empty value, which MUST be
transmitted)" — i.e. the dict with every `None`-valued entry removed. -/
def remove_nones : List (String × Value) → List (String × Value)
  | [] => []
  | (k, v) :: rest =>
      if v = Value.vNull then remove_nones rest else (k, v) :: remove_nones rest

/-- HTTP methods the adapter exposes (`list` is the LIST convention verb). -/
inductive Method where
  | get
  | post
  | delete
  | list
  deriving DecidableEq, Repr

/-- One request handed to the transport: verb, url path, optional JSON body. -/
structure Request where
  method : Method
  path : String
  body : Option (List (String × Value))
  deriving DecidableEq, Repr

/-- A transport-level outcome: a status code with a parsed JSON body, or a
transport failure (network error and the like), which the client must
propagate unchanged. -/
inductive Resp where
  | success (status : Nat) (body : List (String × Value))
  | failure (err : String)
  deriving DecidableEq, Repr

/-- Modelled from the spec: the transport collaborator's behaviour — an
arbitrary function from the request history and the current request to a
response. -/
def Oracle := List Request → Request → Resp

/-- Modelled from the spec: `self._adapter.get(url=...)` — records the GET
request and returns whatever the transport produces for it. -/
def adapter_get (o : Oracle) (tr : List Request) (url : String) : Resp × List Request :=
  (o tr ⟨Method.get, url, none⟩, tr ++ [⟨Method.get, url, none⟩])

/-- Modelled from the spec: `self._adapter.post(url=..., json=...)`. -/
def adapter_post (o : Oracle) (tr : List Request) (url : String)
    (json : List (String × Value)) : Resp × List Request :=
  (o tr ⟨Method.post, url, some json⟩, tr ++ [⟨Method.post, url, some json⟩])

/-- Modelled from the spec: `self._adapter.delete(url=...)`. -/
def adapter_delete (o : Oracle) (tr : List Request) (url : String) : Resp × List Request :=
  (o tr ⟨Method.delete, url, none⟩, tr ++ [⟨Method.delete, url, none⟩])

/-- Modelled from the spec: `self._adapter.list(url=...)`. -/
def adapter_list (o : Oracle) (tr : List Request) (url : String) : Resp × List Request :=
  (o tr ⟨Method.list, url, none⟩, tr ++ [⟨Method.list, url, none⟩])

/-- Module-level `DEFAULT_MOUNT_POINT = 'ad'`. -/
def DEFAULT_MOUNT_POINT : String := "ad"

/-- Body construction of `configure`: `remove_nones` over the seven named
optional parameters, then `params.update(kwargs)`.  (`utils.format_url` is
not under `src/`; per the spec it substitutes the mount point into the path
template, rendered here as string concatenation.) -/
def configure_params (binddn bindpass url userdn upndomain ttl max_ttl : Value)
    (kwargs : List (String × Value)) : List (String × Value) :=
  dictUpdate
    (remove_nones
      [("binddn", binddn), ("bindpass", bindpass), ("url", url), ("userdn", userdn),
       ("upndomain", upndomain), ("ttl", ttl), ("max_ttl", max_ttl)])
    kwargs

/-- Embeds `ActiveDirectory.configure`: POST `/v1/{mount_point}/config`. -/
def configure (o : Oracle) (tr : List Request)
    (binddn bindpass url userdn upndomain ttl max_ttl : Value)
    (kwargs : List (String × Value)) (mount_point : String) : Resp × List Request :=
  adapter_post o tr ("/v1/" ++ mount_point ++ "/config")
    (configure_params binddn bindpass url userdn upndomain ttl max_ttl kwargs)

/-- Embeds `ActiveDirectory.read_config`: GET `/v1/{mount_point}/config`. -/
def read_config (o : Oracle) (tr : List Request) (mount_point : String) : Resp × List Request :=
  adapter_get o tr ("/v1/" ++ mount_point ++ "/config")

/-- Body construction of `create_or_update_role`:
`params = {"name": name}` then `params.update(remove_nones({...}))`. -/
def create_or_update_role_params (name : String) (service_account_name ttl : Value) :
    List (String × Value) :=
  dictUpdate [("name", Value.vStr name)]
    (remove_nones [("service_account_name", service_account_name), ("ttl", ttl)])

/-- Embeds `ActiveDirectory.create_or_update_role`: POST `/v1/{mount_point}/roles/{name}`. -/
def create_or_update_role (o : Oracle) (tr : List Request) (name : String)
    (service_account_name ttl : Value) (mount_point : String) : Resp × List Request :=
  adapter_post o tr ("/v1/" ++ mount_point ++ "/roles/" ++ name)
    (create_or_update_role_params name service_account_name ttl)

/-- Embeds `ActiveDirectory.read_role`: GET `/v1/{mount_point}/roles/{name}`. -/
def read_role (o : Oracle) (tr : List Request) (name : String) (mount_point : String) :
    Resp × List Request :=
  adapter_get o tr ("/v1/" ++ mount_point ++ "/roles/" ++ name)

/-- Embeds `ActiveDirectory.list_roles`: LIST `/v1/{mount_point}/roles`. -/
def list_roles (o : Oracle) (tr : List Request) (mount_point : String) : Resp × List Request :=
  adapter_list o tr ("/v1/" ++ mount_point ++ "/roles")

/-- The FIRST textual definition of `delete_role` in the class body
(lines 136–149): DELETE `/v1/{mount_point}/roles/{name}`, documented as
deleting an ad role.  Under Python's class-body semantics this binding is
overwritten by the second `def delete_role` further down (lines 220–233),
so it is unreachable on the class: kept here only to record what it would
have done. -/
def delete_role_shadowed (o : Oracle) (tr : List Request) (name : String)
    (mount_point : String) : Resp × List Request :=
  adapter_delete o tr ("/v1/" ++ mount_point ++ "/roles/" ++ name)

/-- Embeds `ActiveDirectory.list_libraries`: LIST `v1/{mount_point}/library` — the
source's template string `"v1/{}/library"` has no leading slash. -/
def list_libraries (o : Oracle) (tr : List Request) (mount_point : String) :
    Resp × List Request :=
  adapter_list o tr ("v1/" ++ mount_point ++ "/library")

/-- Embeds `ActiveDirectory.read_library`: GET `/v1/{mount_point}/library/{name}`. -/
def read_library (o : Oracle) (tr : List Request) (name : String) (mount_point : String) :
    Resp × List Request :=
  adapter_get o tr ("/v1/" ++ mount_point ++ "/library/" ++ name)

/-- Body construction of `create_or_update_library`:
`params = {"service_account_names": service_account_names}` (unfiltered, so a
`None` value is kept), then `params.update(remove_nones({...}))`. -/
def create_or_update_library_params
    (service_account_names ttl max_ttl disable_check_in_enforcement : Value) :
    List (String × Value) :=
  dictUpdate [("service_account_names", service_account_names)]
    (remove_nones
      [("ttl", ttl), ("max_ttl", max_ttl),
       ("disable_check_in_enforcement", disable_check_in_enforcement)])

/-- Embeds `ActiveDirectory.create_or_update_library`: POST `/v1/{mount_point}/library/{name}`. -/
def create_or_update_library (o : Oracle) (tr : List Request) (name : String)
    (service_account_names ttl max_ttl disable_check_in_enforcement : Value)
    (mount_point : String) : Resp × List Request :=
  adapter_post o tr ("/v1/" ++ mount_point ++ "/library/" ++ name)
    (create_or_update_library_params service_account_names ttl max_ttl
      disable_check_in_enforcement)

/-- The SECOND textual definition of `delete_role` (lines 220–233), the one
the class actually binds to the name `delete_role` (Python keeps the later
binding): DELETE `/v1/{mount_point}/library/{name}`, documented as deleting
an ad library. -/
def delete_role (o : Oracle) (tr : List Request) (name : String) (mount_point : String) :
    Resp × List Request :=
  adapter_delete o tr ("/v1/" ++ mount_point ++ "/library/" ++ name)

/-- Embeds `ActiveDirectory.get_library_status`: GET `/v1/{mount_point}/library/{name}/status`. -/
def get_library_status (o : Oracle) (tr : List Request) (name : String)
    (mount_point : String) : Resp × List Request :=
  adapter_get o tr ("/v1/" ++ mount_point ++ "/library/" ++ name ++ "/status")

/-- Body construction of `check_out_service_account`:
`params = {}` then `params.update(remove_nones({"ttl": ttl}))`. -/
def check_out_service_account_params (ttl : Value) : List (String × Value) :=
  dictUpdate [] (remove_nones [("ttl", ttl)])

/-- Embeds `ActiveDirectory.check_out_service_account`:
POST `/v1/{mount_point}/library/{name}/check-out`. -/
def check_out_service_account (o : Oracle) (tr : List Request) (name : String)
    (ttl : Value) (mount_point : String) : Resp × List Request :=
  adapter_post o tr ("/v1/" ++ mount_point ++ "/library/" ++ name ++ "/check-out")
    (check_out_service_account_params ttl)

/-- Body construction of `check_in_service_account`:
`params = {}` then `params.update(remove_nones({"service_account_names": ...}))`. -/
def check_in_service_account_params (service_account_names : Value) :
    List (String × Value) :=
  dictUpdate [] (remove_nones [("service_account_names", service_account_names)])

/-- Embeds `ActiveDirectory.check_in_service_account`:
POST `/v1/{mount_point}/library/{name}/check-in`. -/
def check_in_service_account (o : Oracle) (tr : List Request) (name : String)
    (service_account_names : Value) (mount_point : String) : Resp × List Request :=
  adapter_post o tr ("/v1/" ++ mount_point ++ "/library/" ++ name ++ "/check-in")
    (check_in_service_account_params service_account_names)

/-- The method names the `ActiveDirectory` class binds, after Python's
later-definition-wins semantics for the duplicated `def delete_role`
(a `dict` keeps one entry per key, at the position of the first binding). -/
def exposedMethods : List String :=
  ["configure", "read_config", "create_or_update_role", "read_role", "list_roles",
   "delete_role", "list_libraries", "read_library", "create_or_update_library",
   "get_library_status", "check_out_service_account", "check_in_service_account"]

/-- A trivial transport used to evaluate methods at concrete inputs. -/
def nullOracle : Oracle := fun _ _ => Resp.success 204 []

set_option maxHeartbeats 1000000

/-- Assigning a key with `dictSet` makes lookup of that key return the
assigned value, whether the key was present before or not. -/
theorem dictGet_dictSet_self (d : List (String × Value)) (k : String) (v : Value) :
    dictGet (dictSet d k v) k = some v := by
  induction d with
  | nil => simp [dictSet, dictGet]
  | cons kv rest ih => by_cases h : kv.1 = k <;> simp [dictSet, dictGet, h, ih]

/-- Key-by-key content of the `configure` body when no extra keyword
arguments are given: each of the seven optional parameters appears exactly
when it is not `None`, carrying the caller's value. -/
theorem configure_params_keys (b bp u ud up t mtt : Value) :
    dictGet (configure_params b bp u ud up t mtt []) "binddn"
        = (if b = Value.vNull then none else some b) ∧
    dictGet (configure_params b bp u ud up t mtt []) "bindpass"
        = (if bp = Value.vNull then none else some bp) ∧
    dictGet (configure_params b bp u ud up t mtt []) "url"
        = (if u = Value.vNull then none else some u) ∧
    dictGet (configure_params b bp u ud up t mtt []) "userdn"
        = (if ud = Value.vNull then none else some ud) ∧
    dictGet (configure_params b bp u ud up t mtt []) "upndomain"
        = (if up = Value.vNull then none else some up) ∧
    dictGet (configure_params b bp u ud up t mtt []) "ttl"
        = (if t = Value.vNull then none else some t) ∧
    dictGet (configure_params b bp u ud up t mtt []) "max_ttl"
        = (if mtt = Value.vNull then none else some mtt) := by
  by_cases h1 : b = Value.vNull <;> by_cases h2 : bp = Value.vNull <;>
    by_cases h3 : u = Value.vNull <;> by_cases h4 : ud = Value.vNull <;>
    by_cases h5 : up = Value.vNull <;> by_cases h6 : t = Value.vNull <;>
    by_cases h7 : mtt = Value.vNull <;>
    simp [configure_params, dictUpdate, remove_nones, dictGet, h1, h2, h3, h4, h5, h6, h7]

/-- Key-by-key content of the `create_or_update_role` body: `name` is always
present; the two optional parameters appear exactly when not `None`. -/
theorem role_params_keys (name : String) (sname t : Value) :
    dictGet (create_or_update_role_params name sname t) "name" = some (Value.vStr name) ∧
    dictGet (create_or_update_role_params name sname t) "service_account_name"
        = (if sname = Value.vNull then none else some sname) ∧
    dictGet (create_or_update_role_params name sname t) "ttl"
        = (if t = Value.vNull then none else some t) := by
  by_cases h1 : sname = Value.vNull <;> by_cases h2 : t = Value.vNull <;>
    simp [create_or_update_role_params, dictUpdate, remove_nones, dictGet, dictSet, h1, h2]

/-- Key-by-key content of the `create_or_update_library` body:
`service_account_names` is always present, carrying the caller's value as-is
(`None` included); the three filtered optional parameters appear exactly when
not `None`. -/
theorem library_params_keys (sans t mtt dce : Value) :
    dictGet (create_or_update_library_params sans t mtt dce) "service_account_names"
        = some sans ∧
    dictGet (create_or_update_library_params sans t mtt dce) "ttl"
        = (if t = Value.vNull then none else some t) ∧
    dictGet (create_or_update_library_params sans t mtt dce) "max_ttl"
        = (if mtt = Value.vNull then none else some mtt) ∧
    dictGet (create_or_update_library_params sans t mtt dce) "disable_check_in_enforcement"
        = (if dce = Value.vNull then none else some dce) := by
  by_cases h1 : t = Value.vNull <;> by_cases h2 : mtt = Value.vNull <;>
    by_cases h3 : dce = Value.vNull <;>
    simp [create_or_update_library_params, dictUpdate, remove_nones, dictGet, dictSet,
      h1, h2, h3]

/-- The `check_out_service_account` body is exactly the ttl singleton when a
ttl was supplied, and the empty object otherwise. -/
theorem checkout_params_eq (t : Value) :
    check_out_service_account_params t
      = (if t = Value.vNull then [] else [("ttl", t)]) := by
  by_cases h : t = Value.vNull <;>
    simp [check_out_service_account_params, dictUpdate, remove_nones, dictSet, h]

/-- The `check_in_service_account` body is exactly the
`service_account_names` singleton when that list was supplied, and the empty
object otherwise. -/
theorem checkin_params_eq (sans : Value) :
    check_in_service_account_params sans
      = (if sans = Value.vNull then [] else [("service_account_names", sans)]) := by
  by_cases h : sans = Value.vNull <;>
    simp [check_in_service_account_params, dictUpdate, remove_nones, dictSet, h]

/-- Claim C1: the claim says `delete_role(name)` issues one DELETE to
`/v1/{mount_point}/roles/{name}`; evaluating the class's effective
`delete_role` at name "x" and the default mount point shows it issues its
single DELETE to `/v1/ad/library/x` instead — the second `def delete_role`
in the class body (the library delete) shadows the first, roles-path
definition, recorded here by `delete_role_shadowed`. -/
theorem delete_role_actually_deletes_library :
    (delete_role nullOracle [] "x" DEFAULT_MOUNT_POINT).2
      = [⟨Method.delete, "/v1/ad/library/x", none⟩] ∧
    (delete_role_shadowed nullOracle [] "x" DEFAULT_MOUNT_POINT).2
      = [⟨Method.delete, "/v1/ad/roles/x", none⟩] ∧
    ("/v1/ad/library/x" : String) ≠ "/v1/ad/roles/x" :=
  ⟨rfl, rfl, by decide⟩

/-- Claim C2 (counterexample): with no optional parameter supplied at all,
the `create_or_update_library` body still contains the
`service_account_names` key (carrying null), so it is false that a key is
omitted from the body exactly when the caller did not supply the
parameter. -/
theorem library_body_keeps_unsupplied_accounts_key :
    dictGet
        (create_or_update_library_params Value.vNull Value.vNull Value.vNull Value.vNull)
        "service_account_names" ≠ none := by
  decide

/-- Claim C2 (amended): for every body-building operation and every
optional parameter, an explicitly supplied value — falsy ones such as 0 or
false included — is transmitted in the body under its key, and the key is
omitted exactly when the parameter was not supplied, with one exception:
`create_or_update_library`'s `service_account_names` is always present,
carrying the caller's value as-is, null included (`configure` is taken with
no extra keyword arguments). -/
theorem optional_falsy_values_transmitted
    (b bp u ud up t mtt sname sans dce : Value) (name : String) :
    dictGet (configure_params b bp u ud up t mtt []) "binddn"
        = (if b = Value.vNull then none else some b) ∧
    dictGet (configure_params b bp u ud up t mtt []) "bindpass"
        = (if bp = Value.vNull then none else some bp) ∧
    dictGet (configure_params b bp u ud up t mtt []) "url"
        = (if u = Value.vNull then none else some u) ∧
    dictGet (configure_params b bp u ud up t mtt []) "userdn"
        = (if ud = Value.vNull then none else some ud) ∧
    dictGet (configure_params b bp u ud up t mtt []) "upndomain"
        = (if up = Value.vNull then none else some up) ∧
    dictGet (configure_params b bp u ud up t mtt []) "ttl"
        = (if t = Value.vNull then none else some t) ∧
    dictGet (configure_params b bp u ud up t mtt []) "max_ttl"
        = (if mtt = Value.vNull then none else some mtt) ∧
    dictGet (create_or_update_role_params name sname t) "service_account_name"
        = (if sname = Value.vNull then none else some sname) ∧
    dictGet (create_or_update_role_params name sname t) "ttl"
        = (if t = Value.vNull then none else some t) ∧
    dictGet (create_or_update_library_params sans t mtt dce) "service_account_names"
        = some sans ∧
    dictGet (create_or_update_library_params sans t mtt dce) "ttl"
        = (if t = Value.vNull then none else some t) ∧
    dictGet (create_or_update_library_params sans t mtt dce) "max_ttl"
        = (if mtt = Value.vNull then none else some mtt) ∧
    dictGet (create_or_update_library_params sans t mtt dce) "disable_check_in_enforcement"
        = (if dce = Value.vNull then none else some dce) ∧
    dictGet (check_out_service_account_params t) "ttl"
        = (if t = Value.vNull then none else some t) ∧
    dictGet (check_in_service_account_params sans) "service_account_names"
        = (if sans = Value.vNull then none else some sans) := by
  obtain ⟨c1, c2, c3, c4, c5, c6, c7⟩ := configure_params_keys b bp u ud up t mtt
  obtain ⟨-, r1, r2⟩ := role_params_keys name sname t
  obtain ⟨l1, l2, l3, l4⟩ := library_params_keys sans t mtt dce
  refine ⟨c1, c2, c3, c4, c5, c6, c7, r1, r2, l1, l2, l3, l4, ?_, ?_⟩
  · by_cases h : t = Value.vNull <;> simp [checkout_params_eq, dictGet, h]
  · by_cases h : sans = Value.vNull <;> simp [checkin_params_eq, dictGet, h]

/-- Claim C3 (counterexample): the class binds no method named
`delete_library`: the claimed distinct library-delete operation does not
exist. -/
theorem no_delete_library_method : "delete_library" ∉ exposedMethods := by
  decide

/-- Claim C3 (amended): the library-delete operation is exposed, but under
the reused name `delete_role`; for every name and mount point it issues
exactly one DELETE to `/v1/{mount_point}/library/{name}` with no body. -/
theorem library_delete_via_delete_role :
    "delete_role" ∈ exposedMethods ∧
    ∀ (o : Oracle) (tr : List Request) (name mp : String),
      delete_role o tr name mp
        = (o tr ⟨Method.delete, "/v1/" ++ mp ++ "/library/" ++ name, none⟩,
           tr ++ [⟨Method.delete, "/v1/" ++ mp ++ "/library/" ++ name, none⟩]) :=
  ⟨by decide, fun _ _ _ _ => rfl⟩

/-- Claim C4: every `create_or_update_library` call issues exactly one POST
to `/v1/{mount_point}/library/{name}` whose body always contains
`service_account_names` with the caller's value as-is (null when
unsupplied), while `ttl`, `max_ttl` and `disable_check_in_enforcement`
appear exactly when supplied. -/
theorem create_or_update_library_request_spec
    (o : Oracle) (tr : List Request) (name mp : String) (sans t mtt dce : Value) :
    ∃ body,
      create_or_update_library o tr name sans t mtt dce mp
        = (o tr ⟨Method.post, "/v1/" ++ mp ++ "/library/" ++ name, some body⟩,
           tr ++ [⟨Method.post, "/v1/" ++ mp ++ "/library/" ++ name, some body⟩]) ∧
      dictGet body "service_account_names" = some sans ∧
      dictGet body "ttl" = (if t = Value.vNull then none else some t) ∧
      dictGet body "max_ttl" = (if mtt = Value.vNull then none else some mtt) ∧
      dictGet body "disable_check_in_enforcement"
        = (if dce = Value.vNull then none else some dce) := by
  obtain ⟨l1, l2, l3, l4⟩ := library_params_keys sans t mtt dce
  exact ⟨_, rfl, l1, l2, l3, l4⟩

/-- Claim C5: every `check_out_service_account` call issues exactly one POST
to `/v1/{mount_point}/library/{name}/check-out` whose body is the `ttl`
singleton when a ttl was supplied and the empty object otherwise. -/
theorem check_out_request_spec
    (o : Oracle) (tr : List Request) (name mp : String) (t : Value) :
    check_out_service_account o tr name t mp
      = (o tr ⟨Method.post, "/v1/" ++ mp ++ "/library/" ++ name ++ "/check-out",
               some (if t = Value.vNull then [] else [("ttl", t)])⟩,
         tr ++ [⟨Method.post, "/v1/" ++ mp ++ "/library/" ++ name ++ "/check-out",
               some (if t = Value.vNull then [] else [("ttl", t)])⟩]) := by
  rw [check_out_service_account, checkout_params_eq]
  rfl

/-- Claim C6: every `check_in_service_account` call issues exactly one POST
to `/v1/{mount_point}/library/{name}/check-in` whose body is the
`service_account_names` singleton when that list was supplied and the empty
object otherwise. -/
theorem check_in_request_spec
    (o : Oracle) (tr : List Request) (name mp : String) (sans : Value) :
    check_in_service_account o tr name sans mp
      = (o tr ⟨Method.post, "/v1/" ++ mp ++ "/library/" ++ name ++ "/check-in",
               some (if sans = Value.vNull then []
                     else [("service_account_names", sans)])⟩,
         tr ++ [⟨Method.post, "/v1/" ++ mp ++ "/library/" ++ name ++ "/check-in",
               some (if sans = Value.vNull then []
                     else [("service_account_names", sans)])⟩]) := by
  rw [check_in_service_account, checkin_params_eq]
  rfl

/-- Claim C7: the default mount point is "ad", and every operation
substitutes its overridable mount-point argument into its path template, so
with the default every request path addresses the `ad` mount. -/
theorem mount_point_parameterization :
    DEFAULT_MOUNT_POINT = "ad" ∧
    ∀ (o : Oracle) (name mp : String) (b bp u ud up t mtt sname sans dce : Value)
      (kw : List (String × Value)),
      (configure o [] b bp u ud up t mtt kw mp).2.map Request.path
          = ["/v1/" ++ mp ++ "/config"] ∧
      (read_config o [] mp).2.map Request.path = ["/v1/" ++ mp ++ "/config"] ∧
      (create_or_update_role o [] name sname t mp).2.map Request.path
          = ["/v1/" ++ mp ++ "/roles/" ++ name] ∧
      (read_role o [] name mp).2.map Request.path = ["/v1/" ++ mp ++ "/roles/" ++ name] ∧
      (list_roles o [] mp).2.map Request.path = ["/v1/" ++ mp ++ "/roles"] ∧
      (delete_role o [] name mp).2.map Request.path
          = ["/v1/" ++ mp ++ "/library/" ++ name] ∧
      (list_libraries o [] mp).2.map Request.path = ["v1/" ++ mp ++ "/library"] ∧
      (read_library o [] name mp).2.map Request.path
          = ["/v1/" ++ mp ++ "/library/" ++ name] ∧
      (create_or_update_library o [] name sans t mtt dce mp).2.map Request.path
          = ["/v1/" ++ mp ++ "/library/" ++ name] ∧
      (get_library_status o [] name mp).2.map Request.path
          = ["/v1/" ++ mp ++ "/library/" ++ name ++ "/status"] ∧
      (check_out_service_account o [] name t mp).2.map Request.path
          = ["/v1/" ++ mp ++ "/library/" ++ name ++ "/check-out"] ∧
      (check_in_service_account o [] name sans mp).2.map Request.path
          = ["/v1/" ++ mp ++ "/library/" ++ name ++ "/check-in"] :=
  ⟨rfl, fun _ _ _ _ _ _ _ _ _ _ _ _ _ _ =>
    ⟨rfl, rfl, rfl, rfl, rfl, rfl, rfl, rfl, rfl, rfl, rfl, rfl⟩⟩

/-- Claim C8: every operation makes exactly one transport call — it appends
exactly one request to the trace — and returns the transport's response for
that request unmodified, for every transport oracle, hence for every
response or failure the transport can produce. -/
theorem single_transport_call_passthrough :
    ∀ (o : Oracle) (tr : List Request) (name mp : String)
      (b bp u ud up t mtt sname sans dce : Value) (kw : List (String × Value)),
      (∃ r, configure o tr b bp u ud up t mtt kw mp = (o tr r, tr ++ [r])) ∧
      (∃ r, read_config o tr mp = (o tr r, tr ++ [r])) ∧
      (∃ r, create_or_update_role o tr name sname t mp = (o tr r, tr ++ [r])) ∧
      (∃ r, read_role o tr name mp = (o tr r, tr ++ [r])) ∧
      (∃ r, list_roles o tr mp = (o tr r, tr ++ [r])) ∧
      (∃ r, delete_role o tr name mp = (o tr r, tr ++ [r])) ∧
      (∃ r, list_libraries o tr mp = (o tr r, tr ++ [r])) ∧
      (∃ r, read_library o tr name mp = (o tr r, tr ++ [r])) ∧
      (∃ r, create_or_update_library o tr name sans t mtt dce mp = (o tr r, tr ++ [r])) ∧
      (∃ r, get_library_status o tr name mp = (o tr r, tr ++ [r])) ∧
      (∃ r, check_out_service_account o tr name t mp = (o tr r, tr ++ [r])) ∧
      (∃ r, check_in_service_account o tr name sans mp = (o tr r, tr ++ [r])) :=
  fun _ _ _ _ _ _ _ _ _ _ _ _ _ _ _ =>
    ⟨⟨_, rfl⟩, ⟨_, rfl⟩, ⟨_, rfl⟩, ⟨_, rfl⟩, ⟨_, rfl⟩, ⟨_, rfl⟩, ⟨_, rfl⟩, ⟨_, rfl⟩,
     ⟨_, rfl⟩, ⟨_, rfl⟩, ⟨_, rfl⟩, ⟨_, rfl⟩⟩

/-- Claim C9: extra keyword arguments to `configure` are merged into the
body after the None-filtering of the named parameters: an extra key is
transmitted with the caller's value even when that value is null, and it
overwrites the (already filtered) value of a named key of the same name —
in particular a null `ttl` keyword argument lands in the body verbatim. -/
theorem configure_kwargs_merged_last
    (o : Oracle) (tr : List Request) (mp k : String) (v b bp u ud up t mtt : Value) :
    (∃ body,
        configure o tr b bp u ud up t mtt [(k, v)] mp
          = (o tr ⟨Method.post, "/v1/" ++ mp ++ "/config", some body⟩,
             tr ++ [⟨Method.post, "/v1/" ++ mp ++ "/config", some body⟩]) ∧
        dictGet body k = some v) ∧
    dictGet (configure_params b bp u ud up t mtt [("ttl", Value.vNull)]) "ttl"
        = some Value.vNull :=
  ⟨⟨_, rfl, dictGet_dictSet_self _ k v⟩, dictGet_dictSet_self _ "ttl" Value.vNull⟩

/-- Claim C10: `list_libraries` builds its path as `v1/{mount_point}/library`
with no leading slash — its first character is 'v', not '/' — and issues its
LIST request against that slash-less path, while every other operation's
path begins with '/'. -/
theorem list_libraries_slashless_path :
    ∀ (o : Oracle) (tr : List Request) (name mp : String)
      (b bp u ud up t mtt sname sans dce : Value) (kw : List (String × Value)),
      (list_libraries o tr mp).2
          = tr ++ [⟨Method.list, "v1/" ++ mp ++ "/library", none⟩] ∧
      ("v1/" ++ mp ++ "/library").data.head? = some 'v' ∧
      ('v' : Char) ≠ '/' ∧
      (configure o [] b bp u ud up t mtt kw mp).2.map (fun r => r.path.data.head?)
          = [some '/'] ∧
      (read_config o [] mp).2.map (fun r => r.path.data.head?) = [some '/'] ∧
      (create_or_update_role o [] name sname t mp).2.map (fun r => r.path.data.head?)
          = [some '/'] ∧
      (read_role o [] name mp).2.map (fun r => r.path.data.head?) = [some '/'] ∧
      (list_roles o [] mp).2.map (fun r => r.path.data.head?) = [some '/'] ∧
      (delete_role o [] name mp).2.map (fun r => r.path.data.head?) = [some '/'] ∧
      (read_library o [] name mp).2.map (fun r => r.path.data.head?) = [some '/'] ∧
      (create_or_update_library o [] name sans t mtt dce mp).2.map
          (fun r => r.path.data.head?) = [some '/'] ∧
      (get_library_status o [] name mp).2.map (fun r => r.path.data.head?) = [some '/'] ∧
      (check_out_service_account o [] name t mp).2.map (fun r => r.path.data.head?)
          = [some '/'] ∧
      (check_in_service_account o [] name sans mp).2.map (fun r => r.path.data.head?)
          = [some '/'] :=
  fun _ _ _ _ _ _ _ _ _ _ _ _ _ _ _ =>
    ⟨rfl, rfl, by decide, rfl, rfl, rfl, rfl, rfl, rfl, rfl, rfl, rfl, rfl, rfl⟩
